import Mathlib

/-!
# Verification of the fast-trips binding layer (`src/fasttrips.cpp`)

Shallow embedding of the Python C-extension binding of the fast-trips
path-search engine.  The binding marshals numpy tables into the engine
(`initialize_supply`, `set_bump_wait`) and marshals the result of a path
query back out (`find_path`).  The engine core (`PathFinder`, declared in
`pathfinder.h`) is not part of the visible sources; where its behaviour is
needed it is modelled from the design spec, and each such definition is
marked `Modelled from the spec:` in its doc comment.

Machine doubles are modelled as rationals (no claim here depends on
floating-point rounding); C `int` is modelled as `Int`.
-/

namespace FastTrips

/-- A contiguous rank-2 numpy array as produced by
`PyArray_ContiguousFromObject(obj, ty, 2, 2)`: row-major data with
`nrows = dims[0]`, `ncols = dims[1]`.  Element `(i, j)` lives at linear
offset `i * ncols + j`, exactly as the C code indexes the data pointer. -/
structure Arr2 (α : Type) where
  nrows : Nat
  ncols : Nat
  data : List α
deriving DecidableEq

/-- Read element `(i, j)` of a contiguous rank-2 array. -/
def Arr2.get {α : Type} [Inhabited α] (a : Arr2 α) (i j : Nat) : α :=
  a.data.getD (i * a.ncols + j) default

/-- One access-link row of the network supply:
index columns (TAZ id, stop id) zipped with cost columns
(walk time, access cost, egress cost). -/
structure AccessRec where
  taz : Int
  stop : Int
  time : Rat
  acc_cost : Rat
  egr_cost : Rat
deriving DecidableEq

/-- One trip stop-time row: index columns (trip id, sequence, stop id)
zipped with data columns (arrival time, departure time). -/
structure StopTimeRec where
  trip : Int
  seq : Int
  stop : Int
  arrive : Rat
  depart : Rat
deriving DecidableEq

/-- One stop-to-stop transfer row: index columns (from stop, to stop)
zipped with data columns (walk time, cost). -/
structure TransferRec where
  fromStop : Int
  toStop : Int
  time : Rat
  cost : Rat
deriving DecidableEq

/-- One capacity-overlay ("bump wait") row: (trip id, sequence, stop id)
mapped to the latest arrival time still eligible to board. -/
structure BumpRec where
  trip : Int
  seq : Int
  stop : Int
  threshold : Rat
deriving DecidableEq

/-- The network supply held by the engine: access links, trip stop
times and transfers. -/
structure NetworkSupply where
  access : List AccessRec
  stoptimes : List StopTimeRec
  transfers : List TransferRec
deriving DecidableEq

/-- The supply of a freshly started worker, before `initialize_supply`. -/
def emptySupply : NetworkSupply := ⟨[], [], []⟩

/-- The process-wide engine state behind the module-level
`fasttrips::PathFinder pathfinder` global: trace output directory and
worker number, the network supply, and the capacity overlay. -/
structure EngineState where
  output_dir : String
  proc_num : Int
  supply : NetworkSupply
  bumpwait : List BumpRec
deriving DecidableEq

/-- `fasttrips::StopState`, the per-stop output record of a path query.
Field names and the int/double split follow the marshaling loop of
`_fasttrips_find_path`. -/
structure StopState where
  label_ : Rat
  deparr_time_ : Rat
  link_time_ : Rat
  cost_ : Rat
  arrdep_time_ : Rat
  deparr_mode_ : Int
  stop_succpred_ : Int
  seq_ : Int
  seq_succpred_ : Int
deriving DecidableEq

/-- The value-initialized `StopState` produced by
`std::map<int, StopState>::operator[]` on a missing key. -/
def StopState.zero : StopState := ⟨0, 0, 0, 0, 0, 0, 0, 0, 0⟩

/-- `fasttrips::PathSpecification` as filled by `_fasttrips_find_path`:
the three integer flags arrive already coerced to booleans. -/
structure PathSpecification where
  passenger_id_ : Int
  path_id_ : Int
  hyperpath_ : Bool
  origin_taz_id_ : Int
  destination_taz_id_ : Int
  outbound_ : Bool
  preferred_time_ : Rat
  trace_ : Bool
deriving DecidableEq

/-- Errors of a binding call: a failed numpy conversion (the C function
returns NULL with a Python exception pending) or a failed `assert`
(fatal in the checked build). -/
inductive BindErr where
  | convFail
  | assertFail
deriving DecidableEq

/-- Modelled from the spec: `PathFinder::initializeSupply` (pathfinder.cpp,
not among the visible sources) keeps the six validated tables as the
network supply, zipping each index table with its data table row by row
(spec section 4.1). -/
def PathFinder.initializeSupply (a1 : Arr2 Int) (a2 : Arr2 Rat)
    (a3 : Arr2 Int) (a4 : Arr2 Rat) (a5 : Arr2 Int) (a6 : Arr2 Rat) :
    NetworkSupply :=
  { access := (List.range a1.nrows).map (fun i =>
      ⟨a1.get i 0, a1.get i 1, a2.get i 0, a2.get i 1, a2.get i 2⟩),
    stoptimes := (List.range a3.nrows).map (fun i =>
      ⟨a3.get i 0, a3.get i 1, a3.get i 2, a4.get i 0, a4.get i 1⟩),
    transfers := (List.range a5.nrows).map (fun i =>
      ⟨a5.get i 0, a5.get i 1, a6.get i 0, a6.get i 1⟩) }

/-- `_fasttrips_initialize_supply`, conversions and asserts in source
order: convert input1 (int32, rank 2), assert 2 columns; convert input2
(double, rank 2), assert 3 columns, assert equal row counts; likewise for
the stop-time pair (3/2 columns) and the transfer pair (2/2 columns);
only then hand the tables to the engine.  A `none` input is a failed
`PyArray_ContiguousFromObject` (wrong element type or rank). -/
def initialize_supply (st : EngineState) (od : String) (pn : Int)
    (input1 : Option (Arr2 Int)) (input2 : Option (Arr2 Rat))
    (input3 : Option (Arr2 Int)) (input4 : Option (Arr2 Rat))
    (input5 : Option (Arr2 Int)) (input6 : Option (Arr2 Rat)) :
    Except BindErr EngineState :=
  match input1 with
  | none => .error .convFail
  | some a1 =>
    if a1.ncols = 2 then
      match input2 with
      | none => .error .convFail
      | some a2 =>
        if a2.ncols = 3 then
          if a1.nrows = a2.nrows then
            match input3 with
            | none => .error .convFail
            | some a3 =>
              if a3.ncols = 3 then
                match input4 with
                | none => .error .convFail
                | some a4 =>
                  if a4.ncols = 2 then
                    if a3.nrows = a4.nrows then
                      match input5 with
                      | none => .error .convFail
                      | some a5 =>
                        if a5.ncols = 2 then
                          match input6 with
                          | none => .error .convFail
                          | some a6 =>
                            if a6.ncols = 2 then
                              if a5.nrows = a6.nrows then
                                .ok { st with
                                  output_dir := od, proc_num := pn,
                                  supply :=
                                    PathFinder.initializeSupply a1 a2 a3 a4 a5 a6 }
                              else .error .assertFail
                            else .error .assertFail
                        else .error .assertFail
                    else .error .assertFail
                  else .error .assertFail
              else .error .assertFail
          else .error .assertFail
        else .error .assertFail
    else .error .assertFail

/-- The state transition of one `initialize_supply` call: the global
engine state is only written by `PathFinder::initializeSupply`, which runs
after every conversion and assert has passed, so on error the previous
state stands. -/
def initialize_supply_step (st : EngineState) (od : String) (pn : Int)
    (input1 : Option (Arr2 Int)) (input2 : Option (Arr2 Rat))
    (input3 : Option (Arr2 Int)) (input4 : Option (Arr2 Rat))
    (input5 : Option (Arr2 Int)) (input6 : Option (Arr2 Rat)) :
    EngineState × Except BindErr Unit :=
  match initialize_supply st od pn input1 input2 input3 input4 input5 input6 with
  | .error e => (st, .error e)
  | .ok st2 => (st2, .ok ())

/-- Modelled from the spec: `PathFinder::setBumpWait` (pathfinder.cpp, not
among the visible sources) replaces the capacity overlay wholesale with the
given rows, never touching the NetworkSupply records (spec sections 3
and 4.2). -/
def PathFinder.setBumpWait (st : EngineState) (idx : Arr2 Int)
    (times : List Rat) : EngineState :=
  { st with bumpwait := (List.range idx.nrows).map (fun i =>
      ⟨idx.get i 0, idx.get i 1, idx.get i 2, times.getD i 0⟩) }

/-- `_fasttrips_set_bump_wait`, in source order: convert input1 (int32,
rank 2), assert 3 columns; convert input2 (double, rank 1); assert equal
lengths; then hand the rows to the engine. -/
def set_bump_wait (st : EngineState) (input1 : Option (Arr2 Int))
    (input2 : Option (List Rat)) : Except BindErr EngineState :=
  match input1 with
  | none => .error .convFail
  | some a1 =>
    if a1.ncols = 3 then
      match input2 with
      | none => .error .convFail
      | some ts =>
        if ts.length = a1.nrows then
          .ok (PathFinder.setBumpWait st a1 ts)
        else .error .assertFail
    else .error .assertFail

/-- The state transition of one `set_bump_wait` call: on error the
previous overlay stands. -/
def set_bump_wait_step (st : EngineState) (input1 : Option (Arr2 Int))
    (input2 : Option (List Rat)) : EngineState × Except BindErr Unit :=
  match set_bump_wait st input1 input2 with
  | .error e => (st, .error e)
  | .ok st2 => (st2, .ok ())

/-- Modelled from the spec: the capacity-overlay lookup — a (trip,
sequence, stop) either has no constraint, or carries a threshold arrival
time; a traveler arriving later than the threshold is denied boarding
(spec sections 3 and 4.2). -/
def boardAllowed (ov : List BumpRec) (trip seq stop : Int) (arr : Rat) :
    Bool :=
  match ov.find? (fun b =>
      decide (b.trip = trip) && decide (b.seq = seq) && decide (b.stop = stop)) with
  | none => true
  | some b => decide (arr ≤ b.threshold)

/-- Modelled from the spec: the trip-ride edges explored by the search —
from a stop one can ride any trip that stops there to a later stop of the
same trip, provided the capacity overlay does not deny boarding at the
boarding stop; a backward search follows the same edges reversed
(spec section 4.3). -/
def tripSuccs (sup : NetworkSupply) (ov : List BumpRec) (fwd : Bool)
    (arr : Rat) (s : Int) : List Int :=
  if fwd then
    sup.stoptimes.filterMap (fun b =>
      if sup.stoptimes.any (fun a =>
          decide (a.stop = s) && decide (a.trip = b.trip) &&
          decide (a.seq < b.seq) && boardAllowed ov a.trip a.seq a.stop arr)
      then some b.stop else none)
  else
    sup.stoptimes.filterMap (fun a =>
      if sup.stoptimes.any (fun b =>
          decide (b.stop = s) && decide (b.trip = a.trip) &&
          decide (a.seq < b.seq)) && boardAllowed ov a.trip a.seq a.stop arr
      then some a.stop else none)

/-- Modelled from the spec: the transfer edges explored by the search;
transfers may be asymmetric, and a backward search follows them reversed
(spec sections 3 and 4.3). -/
def transferSuccs (sup : NetworkSupply) (fwd : Bool) (s : Int) : List Int :=
  if fwd then
    sup.transfers.filterMap (fun t =>
      if decide (t.fromStop = s) then some t.toStop else none)
  else
    sup.transfers.filterMap (fun t =>
      if decide (t.toStop = s) then some t.fromStop else none)

/-- All search successors of a stop: trip rides then transfers. -/
def succs (sup : NetworkSupply) (ov : List BumpRec) (fwd : Bool)
    (arr : Rat) (s : Int) : List Int :=
  tripSuccs sup ov fwd arr s ++ transferSuccs sup fwd s

/-- Does the supply have an access link joining zone `taz` and stop `s`?
The same table serves access and egress (spec section 3). -/
def hasAccessLink (sup : NetworkSupply) (taz s : Int) : Bool :=
  sup.access.any (fun a => decide (a.taz = taz) && decide (a.stop = s))

/-- The stops the search seeds from: every stop joined to the start zone
by an access link, each paired with its one-stop search path. -/
def initVisits (sup : NetworkSupply) (start : Int) : List (Int × List Int) :=
  sup.access.filterMap (fun a =>
    if decide (a.taz = start) then some (a.stop, [a.stop]) else none)

/-- One frontier expansion: keep everything visited and add every
successor of a visited stop, extending its search path. -/
def expandVisits (sup : NetworkSupply) (ov : List BumpRec) (fwd : Bool)
    (arr : Rat) (vis : List (Int × List Int)) : List (Int × List Int) :=
  vis ++ vis.flatMap (fun v =>
    (succs sup ov fwd arr v.1).map (fun t => (t, v.2 ++ [t])))

/-- The visited set after `n` expansions from the start zone's seeds. -/
def visitN (sup : NetworkSupply) (ov : List BumpRec) (fwd : Bool)
    (arr : Rat) (start : Int) : Nat → List (Int × List Int)
  | 0 => initVisits sup start
  | n + 1 => expandVisits sup ov fwd arr (visitN sup ov fwd arr start n)

/-- Modelled from the spec: the StopState records of the extracted path.
The exact generalized-cost weights are external configuration not visible
at this interface (spec section 9), so labels, times and costs are
modelled as hop counts and offsets from the preferred time; link types
are coded access / trip / egress and each record carries the next stop
and the hop sequence numbers (spec section 3, StopState). -/
def mkStates (q : PathSpecification) (p : List Int) :
    List (Int × StopState) :=
  (List.range p.length).map (fun i =>
    (p.getD i 0,
     { label_ := ((p.length - i : Nat) : Rat),
       deparr_time_ := q.preferred_time_,
       link_time_ := 1,
       cost_ := 1,
       arrdep_time_ := q.preferred_time_,
       deparr_mode_ := if i = 0 then 1 else if i + 1 = p.length then 4 else 2,
       stop_succpred_ := p.getD (i + 1) 0,
       seq_ := (i : Int),
       seq_succpred_ := (i : Int) + 1 }))

/-- Modelled from the spec: `PathFinder::findPath` (pathfinder.cpp, not
among the visible sources).  A depart-after (outbound) query searches
forward from the origin zone, an arrive-by query backward from the
destination zone (spec section 4.3); the search explores trip and
transfer edges from the access-linked seed stops, stopping when the
frontier is exhausted; a query that cannot reach a stop egress-linked to
the opposing zone yields the empty result (spec sections 4.3 and 7).  In
deterministic mode the single recorded path is returned; in hyperpath
mode one candidate is drawn reproducibly from the seed derived from
(traveler id, path id) (spec section 4.4).  The trace flag only affects
diagnostics, never the result (spec section 6). -/
def PathFinder.findPath (sup : NetworkSupply) (ov : List BumpRec)
    (q : PathSpecification) : List (Int × StopState) × List Int :=
  let fwd := q.outbound_
  let start := if fwd then q.origin_taz_id_ else q.destination_taz_id_
  let goal := if fwd then q.destination_taz_id_ else q.origin_taz_id_
  let fuel := sup.stoptimes.length + sup.transfers.length + 1
  let cands := (visitN sup ov fwd q.preferred_time_ start fuel).filter
    (fun v => hasAccessLink sup goal v.1)
  match (if q.hyperpath_ then
           cands.get? ((q.passenger_id_ + q.path_id_).natAbs % cands.length)
         else cands.head?) with
  | none => ([], [])
  | some v =>
    let p := if fwd then v.2 else v.2.reverse
    (mkStates q p, p)

/-- `path_states[stop_id]` in the marshaling loop:
`std::map::operator[]` never fails — a missing key yields a
value-initialized `StopState`. -/
def lookupState (m : List (Int × StopState)) (k : Int) : StopState :=
  match m.find? (fun e => decide (e.1 = k)) with
  | none => StopState.zero
  | some e => e.2

/-- The integer output row of one path stop, columns in source order:
stop id, deparr mode, successor/predecessor stop, sequence,
successor/predecessor sequence. -/
def intRow (stop_id : Int) (ss : StopState) : List Int :=
  [stop_id, ss.deparr_mode_, ss.stop_succpred_, ss.seq_, ss.seq_succpred_]

/-- The double output row of one path stop, columns in source order:
label, deparr time, link time, cost, arrdep time. -/
def doubleRow (ss : StopState) : List Rat :=
  [ss.label_, ss.deparr_time_, ss.link_time_, ss.cost_, ss.arrdep_time_]

/-- The marshaling loop of `_fasttrips_find_path` (source lines 134-158):
two arrays of `path_stops.size()` rows, each row read through
`path_states[stop_id]`. -/
def marshalPath (path_states : List (Int × StopState))
    (path_stops : List Int) : List (List Int) × List (List Rat) :=
  (path_stops.map (fun sid => intRow sid (lookupState path_states sid)),
   path_stops.map (fun sid => doubleRow (lookupState path_states sid)))

/-- The `PathSpecification` built by `_fasttrips_find_path` from its raw
arguments: the three integer flags are coerced to booleans by a nonzero
test (source lines 126-128). -/
def mkPathSpec (passenger_id path_id hyperpath_i origin_taz
    destination_taz outbound_i : Int) (preferred_time : Rat)
    (trace_i : Int) : PathSpecification :=
  { passenger_id_ := passenger_id,
    path_id_ := path_id,
    hyperpath_ := decide (hyperpath_i ≠ 0),
    origin_taz_id_ := origin_taz,
    destination_taz_id_ := destination_taz,
    outbound_ := decide (outbound_i ≠ 0),
    preferred_time_ := preferred_time,
    trace_ := decide (trace_i ≠ 0) }

/-- `_fasttrips_find_path`: parse the query, run the search on the
process-wide supply and overlay, and marshal the result. -/
def find_path (st : EngineState) (passenger_id path_id hyperpath_i
    origin_taz destination_taz outbound_i : Int) (preferred_time : Rat)
    (trace_i : Int) : List (List Int) × List (List Rat) :=
  let r := PathFinder.findPath st.supply st.bumpwait
    (mkPathSpec passenger_id path_id hyperpath_i origin_taz
      destination_taz outbound_i preferred_time trace_i)
  marshalPath r.1 r.2

/-- The state transition of one `find_path` call: `path_states` and
`path_stops` are fresh locals of the call (source lines 130-131) and the
search reads the supply and overlay without writing them (spec section
5), so the engine state is returned unchanged. -/
def find_path_step (st : EngineState) (passenger_id path_id hyperpath_i
    origin_taz destination_taz outbound_i : Int) (preferred_time : Rat)
    (trace_i : Int) :
    EngineState × (List (List Int) × List (List Rat)) :=
  (st, find_path st passenger_id path_id hyperpath_i origin_taz
    destination_taz outbound_i preferred_time trace_i)

/-- A stop reachable by the search's edge relation: an access link from
the start zone reaches its stop, and every trip or transfer successor of
a reachable stop is reachable. -/
inductive ReachStop (sup : NetworkSupply) (ov : List BumpRec) (fwd : Bool)
    (arr : Rat) (start : Int) : Int → Prop
  | access (a : AccessRec) : a ∈ sup.access → a.taz = start →
      ReachStop sup ov fwd arr start a.stop
  | step (s t : Int) : ReachStop sup ov fwd arr start s →
      t ∈ succs sup ov fwd arr s → ReachStop sup ov fwd arr start t

/-- A query's origin/destination pair is reachable when some stop
reachable from the query's start zone is access-linked to the opposing
zone. -/
def ReachableQuery (sup : NetworkSupply) (ov : List BumpRec)
    (q : PathSpecification) : Prop :=
  ∃ s, ReachStop sup ov q.outbound_ q.preferred_time_
        (if q.outbound_ then q.origin_taz_id_ else q.destination_taz_id_) s ∧
      hasAccessLink sup
        (if q.outbound_ then q.destination_taz_id_ else q.origin_taz_id_) s
        = true

/-! ## Concrete fixtures used by the witnesses -/

/-- A two-stop example supply: zone 1 accesses stop 10, zone 2 accesses
stop 20, and trip 7 runs from stop 10 (sequence 1) to stop 20
(sequence 2). -/
def supEx : NetworkSupply :=
  { access := [⟨1, 10, 5, 1, 2⟩, ⟨2, 20, 3, 1, 1⟩],
    stoptimes := [⟨7, 1, 10, 100, 101⟩, ⟨7, 2, 20, 120, 121⟩],
    transfers := [] }

/-- An engine state holding the example supply and an empty overlay. -/
def stEx : EngineState := ⟨"out", 0, supEx, []⟩

/-- The same supply under a different trace directory and worker id. -/
def stEx2 : EngineState := ⟨"other", 9, supEx, []⟩

/-- An engine state with an empty supply: every query is unreachable. -/
def stEmptyEx : EngineState := ⟨"fresh", 1, emptySupply, []⟩

/-- One access-index row (zone 1, stop 10). -/
def aIdxEx : Arr2 Int := ⟨1, 2, [1, 10]⟩

/-- One access-cost row matching `aIdxEx`. -/
def aCostEx : Arr2 Rat := ⟨1, 3, [5, 1, 2]⟩

/-- Two access-cost rows: a row-count mismatch against `aIdxEx`. -/
def aCostBadEx : Arr2 Rat := ⟨2, 3, [5, 1, 2, 3, 1, 1]⟩

/-- Two stop-time index rows for trip 7. -/
def stIdxEx : Arr2 Int := ⟨2, 3, [7, 1, 10, 7, 2, 20]⟩

/-- Two stop-time data rows matching `stIdxEx`. -/
def stDataEx : Arr2 Rat := ⟨2, 2, [100, 101, 120, 121]⟩

/-- An empty transfer index table. -/
def xfIdxEx : Arr2 Int := ⟨0, 2, []⟩

/-- An empty transfer data table. -/
def xfDataEx : Arr2 Rat := ⟨0, 2, []⟩

/-- One bump-index row (trip 7, sequence 1, stop 10). -/
def bwIdxEx : Arr2 Int := ⟨1, 3, [7, 1, 10]⟩

/-- One bump threshold time. -/
def bwTimesEx : List Rat := [95]

/-! ## Helper lemmas -/

/-- A successful `initialize_supply` consumed six successful conversions:
the C function can only reach `initializeSupply` after every
`PyArray_ContiguousFromObject` returned non-NULL. -/
theorem initialize_supply_ok_all_some (st : EngineState) (od : String)
    (pn : Int) (i1 : Option (Arr2 Int)) (i2 : Option (Arr2 Rat))
    (i3 : Option (Arr2 Int)) (i4 : Option (Arr2 Rat))
    (i5 : Option (Arr2 Int)) (i6 : Option (Arr2 Rat)) (st2 : EngineState)
    (h : initialize_supply st od pn i1 i2 i3 i4 i5 i6 = .ok st2) :
    (∃ a, i1 = some a) ∧ (∃ a, i2 = some a) ∧ (∃ a, i3 = some a) ∧
    (∃ a, i4 = some a) ∧ (∃ a, i5 = some a) ∧ (∃ a, i6 = some a) := by
  unfold initialize_supply at h
  rcases i1 with _ | a1 <;> rcases i2 with _ | a2 <;> rcases i3 with _ | a3 <;>
    rcases i4 with _ | a4 <;> rcases i5 with _ | a5 <;> rcases i6 with _ | a6 <;>
    simp_all
  all_goals split_ifs at h

/-- Row `i` of the marshaled output pair, for any state map and stop
list: each returned row is read through the defaulting map access. -/
theorem marshalPath_row (states : List (Int × StopState))
    (stops : List Int) (i : Nat) (h : i < stops.length) :
    (marshalPath states stops).1.get? i =
      some (intRow (stops.getD i 0) (lookupState states (stops.getD i 0))) ∧
    (marshalPath states stops).2.get? i =
      some (doubleRow (lookupState states (stops.getD i 0))) := by
  have hd : stops.getD i 0 = stops[i] := by
    rw [List.getD_eq_getElem?_getD, List.getElem?_eq_getElem h]
    rfl
  unfold marshalPath
  constructor <;>
    simp [List.get?_eq_getElem?, List.getElem?_map, List.getElem?_eq_getElem h, hd]

/-! ## C2: dimensional validation of `initialize_supply` -/

/-- C2: with all six conversions successful, any violation of the
dimensional invariants — access index 2 / access cost 3 / stop-time
index 3 / stop-time data 2 / transfer index 2 / transfer data 2 columns,
or unequal row counts within a paired index/data couple — makes
`initialize_supply` fail the corresponding assert: the call is a fatal
construction error and the engine state, hence the supply serving the
queries, is left untouched. -/
theorem initialize_supply_dim_mismatch_fatal (st : EngineState)
    (od : String) (pn : Int) (a1 : Arr2 Int) (a2 : Arr2 Rat)
    (a3 : Arr2 Int) (a4 : Arr2 Rat) (a5 : Arr2 Int) (a6 : Arr2 Rat)
    (hmis : ¬(a1.ncols = 2 ∧ a2.ncols = 3 ∧ a1.nrows = a2.nrows ∧
        a3.ncols = 3 ∧ a4.ncols = 2 ∧ a3.nrows = a4.nrows ∧
        a5.ncols = 2 ∧ a6.ncols = 2 ∧ a5.nrows = a6.nrows)) :
    initialize_supply_step st od pn (some a1) (some a2) (some a3)
      (some a4) (some a5) (some a6) = (st, .error .assertFail) := by
  have hcore : initialize_supply st od pn (some a1) (some a2) (some a3)
      (some a4) (some a5) (some a6) = .error .assertFail := by
    simp only [initialize_supply]
    split_ifs with h1 h2 h3 h4 h5 h6 h7 h8 h9 <;>
      first
        | rfl
        | exact absurd ⟨h1, h2, h3, h4, h5, h6, h7, h8, h9⟩ hmis
  simp [initialize_supply_step, hcore]

/-- C2 witness: a concrete row-count mismatch (one access-index row
against two access-cost rows) is rejected with the state unchanged. -/
theorem initialize_supply_dim_mismatch_fatal_w :
    initialize_supply_step stEx "o" 3 (some aIdxEx) (some aCostBadEx)
      (some stIdxEx) (some stDataEx) (some xfIdxEx) (some xfDataEx) =
      (stEx, .error .assertFail) :=
  initialize_supply_dim_mismatch_fatal stEx "o" 3 aIdxEx aCostBadEx
    stIdxEx stDataEx xfIdxEx xfDataEx (by decide)

/-! ## C3: all-or-nothing build on conversion failure -/

/-- C3: if any of the six inputs fails its numpy conversion, the call
returns an error and the engine state — in particular any previously
installed supply — is left exactly as it was: the build is
all-or-nothing. -/
theorem initialize_supply_atomic_on_conversion_failure (st : EngineState)
    (od : String) (pn : Int) (i1 : Option (Arr2 Int))
    (i2 : Option (Arr2 Rat)) (i3 : Option (Arr2 Int))
    (i4 : Option (Arr2 Rat)) (i5 : Option (Arr2 Int))
    (i6 : Option (Arr2 Rat))
    (hfail : i1 = none ∨ i2 = none ∨ i3 = none ∨ i4 = none ∨
      i5 = none ∨ i6 = none) :
    ∃ e, initialize_supply_step st od pn i1 i2 i3 i4 i5 i6 =
      (st, Except.error e) := by
  unfold initialize_supply_step
  rcases hres : initialize_supply st od pn i1 i2 i3 i4 i5 i6 with e | st2
  · exact ⟨e, by simp⟩
  · exfalso
    obtain ⟨⟨b1, h1⟩, ⟨b2, h2⟩, ⟨b3, h3⟩, ⟨b4, h4⟩, ⟨b5, h5⟩, ⟨b6, h6⟩⟩ :=
      initialize_supply_ok_all_some st od pn i1 i2 i3 i4 i5 i6 st2 hres
    rcases hfail with h | h | h | h | h | h <;> simp_all

/-- C3 witness: a failed conversion of the stop-time data table leaves a
fully initialized engine state unchanged and reports an error. -/
theorem initialize_supply_atomic_on_conversion_failure_w :
    ∃ e, initialize_supply_step stEx "o" 3 (some aIdxEx) (some aCostEx)
      (some stIdxEx) none (some xfIdxEx) (some xfDataEx) =
      (stEx, Except.error e) :=
  initialize_supply_atomic_on_conversion_failure stEx "o" 3 (some aIdxEx)
    (some aCostEx) (some stIdxEx) none (some xfIdxEx) (some xfDataEx)
    (Or.inr (Or.inr (Or.inr (Or.inl rfl))))

/-! ## C4: wholesale, atomic overlay replacement -/

/-- C4: `set_bump_wait` never mutates the NetworkSupply records; a failed
conversion of either input returns an error with the whole state (hence
the existing overlay) unchanged; and a well-formed call (3-column index
table, threshold table of equal length) replaces the overlay wholesale
with exactly the given rows. -/
theorem set_bump_wait_contract (st : EngineState)
    (i1 : Option (Arr2 Int)) (i2 : Option (List Rat)) :
    ((set_bump_wait_step st i1 i2).1.supply = st.supply) ∧
    ((i1 = none ∨ i2 = none) →
      ∃ e, set_bump_wait_step st i1 i2 = (st, Except.error e)) ∧
    (∀ a1 ts, i1 = some a1 → i2 = some ts → a1.ncols = 3 →
      ts.length = a1.nrows →
      set_bump_wait_step st i1 i2 =
        ({ st with bumpwait := (List.range a1.nrows).map (fun i =>
            ⟨a1.get i 0, a1.get i 1, a1.get i 2, ts.getD i 0⟩) },
         .ok ())) := by
  refine ⟨?_, ?_, ?_⟩
  · rcases i1 with _ | a1
    · rfl
    · rcases i2 with _ | ts <;>
        simp only [set_bump_wait_step, set_bump_wait,
          PathFinder.setBumpWait] <;>
        split_ifs <;> rfl
  · rintro (rfl | rfl)
    · exact ⟨.convFail, rfl⟩
    · rcases i1 with _ | a1
      · exact ⟨.convFail, rfl⟩
      · simp only [set_bump_wait_step, set_bump_wait]
        split_ifs <;> exact ⟨_, rfl⟩
  · rintro a1 ts rfl rfl h3 hlen
    simp [set_bump_wait_step, set_bump_wait, PathFinder.setBumpWait, h3,
      hlen]

/-- C4 witness: a concrete one-row bump table replaces the (empty)
overlay of `stEx` wholesale, leaving the supply untouched. -/
theorem set_bump_wait_contract_w :
    set_bump_wait_step stEx (some bwIdxEx) (some bwTimesEx) =
      ({ stEx with bumpwait := (List.range bwIdxEx.nrows).map (fun i =>
          ⟨bwIdxEx.get i 0, bwIdxEx.get i 1, bwIdxEx.get i 2,
            bwTimesEx.getD i 0⟩) }, .ok ()) :=
  (set_bump_wait_contract stEx (some bwIdxEx) (some bwTimesEx)).2.2
    bwIdxEx bwTimesEx rfl rfl (by decide) (by decide)

/-! ## C5: output rows carry the StopState of each path stop -/

/-- C5: for a `find_path` call, row `i` of the returned pair carries
exactly the StopState record keyed by the `i`-th stop of the path: the
integer row is (stop id, deparr mode, linked stop, sequence, linked
sequence) and the numeric row is (label, deparr time, link time, cost,
arrdep time), all read from the path-state map at that stop id. -/
theorem find_path_rows_from_stopstates (st : EngineState)
    (p pid hi o d oi : Int) (pt : Rat) (ti : Int) (i : Nat) (sid : Int)
    (ss : StopState)
    (hsid : (PathFinder.findPath st.supply st.bumpwait
      (mkPathSpec p pid hi o d oi pt ti)).2.get? i = some sid)
    (hss : lookupState (PathFinder.findPath st.supply st.bumpwait
      (mkPathSpec p pid hi o d oi pt ti)).1 sid = ss) :
    (find_path st p pid hi o d oi pt ti).1.get? i =
      some [sid, ss.deparr_mode_, ss.stop_succpred_, ss.seq_,
        ss.seq_succpred_] ∧
    (find_path st p pid hi o d oi pt ti).2.get? i =
      some [ss.label_, ss.deparr_time_, ss.link_time_, ss.cost_,
        ss.arrdep_time_] := by
  have hlen : i < (PathFinder.findPath st.supply st.bumpwait
      (mkPathSpec p pid hi o d oi pt ti)).2.length := by
    rw [List.get?_eq_getElem?] at hsid
    exact (List.getElem?_eq_some.mp hsid).1
  have hgetD : (PathFinder.findPath st.supply st.bumpwait
      (mkPathSpec p pid hi o d oi pt ti)).2.getD i 0 = sid := by
    rw [List.getD_eq_getElem?_getD, ← List.get?_eq_getElem?, hsid]
    rfl
  have h := marshalPath_row
    (PathFinder.findPath st.supply st.bumpwait
      (mkPathSpec p pid hi o d oi pt ti)).1
    (PathFinder.findPath st.supply st.bumpwait
      (mkPathSpec p pid hi o d oi pt ti)).2 i hlen
  rw [hgetD, hss] at h
  simpa only [find_path] using h

/-- C5 witness: on the two-stop example the first row of the found path
is read off the StopState record of stop 10. -/
theorem find_path_rows_from_stopstates_w :
    (find_path stEx 1 2 0 1 2 1 90 0).1.get? 0 = some [10, 1, 20, 0, 1] ∧
    (find_path stEx 1 2 0 1 2 1 90 0).2.get? 0 =
      some [2, 90, 1, 1, 90] :=
  find_path_rows_from_stopstates stEx 1 2 0 1 2 1 90 0 0 10
    ⟨2, 90, 1, 1, 90, 1, 20, 0, 1⟩ (by decide) (by decide)

/-! ## C10: total, defaulting map lookups in result marshaling -/

/-- The state map returned by the modelled search is always the
StopState table of its own stop list (also in the no-path case, where
both are empty). -/
theorem findPath_states_eq (sup : NetworkSupply) (ov : List BumpRec)
    (q : PathSpecification) :
    (PathFinder.findPath sup ov q).1 =
      mkStates q (PathFinder.findPath sup ov q).2 := by
  simp only [PathFinder.findPath]
  split
  · rfl
  · rfl

/-- `mkStates` records an entry for every stop of the path it is built
from. -/
theorem mkStates_covers (q : PathSpecification) (p : List Int) :
    ∀ sid ∈ p, ∃ e ∈ mkStates q p, e.1 = sid := by
  intro sid hsid
  obtain ⟨i, hi, hget⟩ := List.mem_iff_getElem.mp hsid
  simp only [mkStates]
  refine ⟨_, List.mem_map.mpr ⟨i, List.mem_range.mpr hi, rfl⟩, ?_⟩
  show p.getD i 0 = sid
  rw [List.getD_eq_getElem?_getD, List.getElem?_eq_getElem hi]
  exact hget

/-- C10: the marshaling of a result row never fails: a stop id in the
stop list that is absent from the stop-state map still yields a full row
pair, filled from a value-initialized (default-constructed) StopState;
and the search upholds the presupposition for correct output, recording
a state entry for every stop id it places in the stop list. -/
theorem marshalPath_defaults_on_missing (states : List (Int × StopState))
    (stops : List Int) (i : Nat) (h : i < stops.length)
    (habs : states.find? (fun e => decide (e.1 = stops.getD i 0)) = none) :
    ((marshalPath states stops).1.get? i =
      some (intRow (stops.getD i 0) StopState.zero) ∧
    (marshalPath states stops).2.get? i =
      some (doubleRow StopState.zero)) ∧
    (∀ (sup : NetworkSupply) (ov : List BumpRec) (q : PathSpecification),
      ∀ sid ∈ (PathFinder.findPath sup ov q).2,
        ∃ e ∈ (PathFinder.findPath sup ov q).1, e.1 = sid) := by
  constructor
  · have hlook : lookupState states (stops.getD i 0) = StopState.zero := by
      unfold lookupState
      rw [habs]
    have hrow := marshalPath_row states stops i h
    rw [hlook] at hrow
    exact hrow
  · intro sup ov q sid hsid
    rw [findPath_states_eq]
    exact mkStates_covers q (PathFinder.findPath sup ov q).2 sid hsid

/-- C10 witness: marshaling a stop list against an empty state map
produces rows of the default StopState. -/
theorem marshalPath_defaults_on_missing_w :
    ((marshalPath [] [42]).1.get? 0 = some (intRow 42 StopState.zero) ∧
    (marshalPath [] [42]).2.get? 0 = some (doubleRow StopState.zero)) ∧
    (∀ (sup : NetworkSupply) (ov : List BumpRec) (q : PathSpecification),
      ∀ sid ∈ (PathFinder.findPath sup ov q).2,
        ∃ e ∈ (PathFinder.findPath sup ov q).1, e.1 = sid) :=
  marshalPath_defaults_on_missing [] [42] 0 (by decide) rfl

/-! ## C6: deterministic mode is pure -/

/-- C6: two deterministic `find_path` calls (hyperpath flag 0) on engine
states with equal supply and equal capacity overlay, with equal query
arguments, return identical output pairs — the result depends on nothing
else in the process state. -/
theorem find_path_deterministic_pure (st1 st2 : EngineState)
    (p pid o d oi : Int) (pt : Rat) (ti : Int)
    (hsup : st1.supply = st2.supply) (hov : st1.bumpwait = st2.bumpwait) :
    find_path st1 p pid 0 o d oi pt ti =
      find_path st2 p pid 0 o d oi pt ti := by
  unfold find_path
  rw [hsup, hov]

/-- C6 witness: the example supply under two different trace directories
and worker numbers yields byte-identical deterministic results. -/
theorem find_path_deterministic_pure_w :
    find_path stEx 1 2 0 1 2 1 90 0 = find_path stEx2 1 2 0 1 2 1 90 0 :=
  find_path_deterministic_pure stEx stEx2 1 2 1 2 1 90 0 rfl rfl

/-! ## C7: the trace flag is noninterfering -/

/-- The search result does not depend on the trace field of the query. -/
theorem findPath_trace_irrel (sup : NetworkSupply) (ov : List BumpRec)
    (q : PathSpecification) (b : Bool) :
    PathFinder.findPath sup ov { q with trace_ := b } =
      PathFinder.findPath sup ov q := by
  cases q
  rfl

/-- C7: two `find_path` calls identical except for the raw trace
argument return identical integer and numeric sequences — tracing never
changes the search result. -/
theorem find_path_trace_noninterference (st : EngineState)
    (p pid hi o d oi : Int) (pt : Rat) (t1 t2 : Int) :
    find_path st p pid hi o d oi pt t1 =
      find_path st p pid hi o d oi pt t2 := by
  unfold find_path
  have h1 : mkPathSpec p pid hi o d oi pt t1 =
      { mkPathSpec p pid hi o d oi pt t2 with trace_ := decide (t1 ≠ 0) } :=
    rfl
  rw [h1, findPath_trace_irrel]

/-! ## C8: find_path is self-contained -/

/-- C8: a `find_path` call returns the engine state unchanged (its
stop-state map and stop list are locals of the call), and its output is
a function of the shared supply and overlay alone — no other query state
can leak in. -/
theorem find_path_self_contained (st : EngineState)
    (p pid hi o d oi : Int) (pt : Rat) (ti : Int) :
    (find_path_step st p pid hi o d oi pt ti).1 = st ∧
    (∀ st2, st2.supply = st.supply → st2.bumpwait = st.bumpwait →
      (find_path_step st2 p pid hi o d oi pt ti).2 =
        (find_path_step st p pid hi o d oi pt ti).2) := by
  refine ⟨rfl, fun st2 h1 h2 => ?_⟩
  unfold find_path_step find_path
  rw [h1, h2]

/-- C8 witness: on the example states the call leaves the state intact
and two states sharing supply and overlay agree on the output. -/
theorem find_path_self_contained_w :
    (find_path_step stEx 1 2 0 1 2 1 90 0).1 = stEx ∧
    (find_path_step stEx2 1 2 0 1 2 1 90 0).2 =
      (find_path_step stEx 1 2 0 1 2 1 90 0).2 :=
  ⟨(find_path_self_contained stEx 1 2 0 1 2 1 90 0).1,
   (find_path_self_contained stEx 1 2 0 1 2 1 90 0).2 stEx2 rfl rfl⟩

/-! ## C9: integer flags are coerced by a nonzero test -/

/-- C9: the hyperpath, outbound and trace arguments only matter through
`≠ 0`: two calls identical except that one of these flags takes two
different nonzero values — the other two flags arbitrary (zero or not)
but equal — return the same output pair. -/
theorem find_path_flag_nonzero_coercion (st : EngineState)
    (p pid o d : Int) (pt : Rat) :
    (∀ h1 h2 oi ti : Int, h1 ≠ 0 → h2 ≠ 0 →
      find_path st p pid h1 o d oi pt ti =
        find_path st p pid h2 o d oi pt ti) ∧
    (∀ hi o1 o2 ti : Int, o1 ≠ 0 → o2 ≠ 0 →
      find_path st p pid hi o d o1 pt ti =
        find_path st p pid hi o d o2 pt ti) ∧
    (∀ hi oi t1 t2 : Int, t1 ≠ 0 → t2 ≠ 0 →
      find_path st p pid hi o d oi pt t1 =
        find_path st p pid hi o d oi pt t2) := by
  refine ⟨fun h1 h2 oi ti hh1 hh2 => ?_, fun hi o1 o2 ti ho1 ho2 => ?_,
    fun hi oi t1 t2 ht1 ht2 => ?_⟩
  · unfold find_path
    have hspec : mkPathSpec p pid h1 o d oi pt ti =
        mkPathSpec p pid h2 o d oi pt ti := by
      simp [mkPathSpec, hh1, hh2]
    rw [hspec]
  · unfold find_path
    have hspec : mkPathSpec p pid hi o d o1 pt ti =
        mkPathSpec p pid hi o d o2 pt ti := by
      simp [mkPathSpec, ho1, ho2]
    rw [hspec]
  · unfold find_path
    have hspec : mkPathSpec p pid hi o d oi pt t1 =
        mkPathSpec p pid hi o d oi pt t2 := by
      simp [mkPathSpec, ht1, ht2]
    rw [hspec]

/-- C9 witness: varying one flag between 1 and 2 while the other two
stay 0 gives the same result, for each of the three flags. -/
theorem find_path_flag_nonzero_coercion_w :
    find_path stEx 1 2 1 1 2 0 90 0 = find_path stEx 1 2 2 1 2 0 90 0 ∧
    find_path stEx 1 2 0 1 2 1 90 0 = find_path stEx 1 2 0 1 2 2 90 0 ∧
    find_path stEx 1 2 0 1 2 0 90 1 = find_path stEx 1 2 0 1 2 0 90 2 :=
  ⟨(find_path_flag_nonzero_coercion stEx 1 2 1 2 90).1 1 2 0 0
      (by decide) (by decide),
   (find_path_flag_nonzero_coercion stEx 1 2 1 2 90).2.1 0 1 2 0
      (by decide) (by decide),
   (find_path_flag_nonzero_coercion stEx 1 2 1 2 90).2.2 0 0 1 2
      (by decide) (by decide)⟩

/-! ## C1: parallel output shape, empty pair on unreachable queries -/

/-- Every stop the frontier expansion visits is reachable through the
search's edge relation. -/
theorem visitN_reachable (sup : NetworkSupply) (ov : List BumpRec)
    (fwd : Bool) (arr : Rat) (start : Int) :
    ∀ n v, v ∈ visitN sup ov fwd arr start n →
      ReachStop sup ov fwd arr start v.1 := by
  intro n
  induction n with
  | zero =>
    intro v hv
    unfold visitN initVisits at hv
    obtain ⟨a, ha, hf⟩ := List.mem_filterMap.mp hv
    by_cases hd : a.taz = start
    · simp [hd] at hf
      subst hf
      exact ReachStop.access a ha hd
    · simp [hd] at hf
  | succ n ih =>
    intro v hv
    unfold visitN expandVisits at hv
    rcases List.mem_append.mp hv with hold | hnew
    · exact ih v hold
    · obtain ⟨w, hw, hv2⟩ := List.mem_flatMap.mp hnew
      obtain ⟨t, ht, rfl⟩ := List.mem_map.mp hv2
      exact ReachStop.step w.1 t (ih w hw) ht

/-- An unreachable query makes `PathFinder::findPath` return the empty
state map and stop list (spec: frontier exhausted, no path). -/
theorem findPath_unreachable_empty (sup : NetworkSupply)
    (ov : List BumpRec) (q : PathSpecification)
    (h : ¬ ReachableQuery sup ov q) :
    PathFinder.findPath sup ov q = ([], []) := by
  simp only [PathFinder.findPath]
  have hc : (visitN sup ov q.outbound_ q.preferred_time_
      (if q.outbound_ then q.origin_taz_id_ else q.destination_taz_id_)
      (sup.stoptimes.length + sup.transfers.length + 1)).filter
      (fun v => hasAccessLink sup
        (if q.outbound_ then q.destination_taz_id_ else q.origin_taz_id_)
        v.1) = [] := by
    by_contra hne
    obtain ⟨v, hv⟩ := List.exists_mem_of_ne_nil _ hne
    have hmem := List.mem_filter.mp hv
    exact h ⟨v.1,
      visitN_reachable sup ov q.outbound_ q.preferred_time_ _ _ v hmem.1,
      hmem.2⟩
  rw [hc]
  cases hhp : q.hyperpath_ <;> simp

/-- C1: every `find_path` call returns two parallel sequences of equal
length, one row per stop of the search's returned path; and a query
whose origin/destination pair is unreachable returns the empty pair, not
an error. -/
theorem find_path_parallel_and_unreachable_empty (st : EngineState)
    (p pid hi o d oi : Int) (pt : Rat) (ti : Int) :
    ((find_path st p pid hi o d oi pt ti).1.length =
      (find_path st p pid hi o d oi pt ti).2.length) ∧
    ((find_path st p pid hi o d oi pt ti).1.length =
      (PathFinder.findPath st.supply st.bumpwait
        (mkPathSpec p pid hi o d oi pt ti)).2.length) ∧
    (¬ ReachableQuery st.supply st.bumpwait
        (mkPathSpec p pid hi o d oi pt ti) →
      find_path st p pid hi o d oi pt ti = ([], [])) := by
  refine ⟨?_, ?_, fun h => ?_⟩
  · unfold find_path marshalPath
    simp
  · unfold find_path marshalPath
    simp
  · unfold find_path
    rw [findPath_unreachable_empty st.supply st.bumpwait
      (mkPathSpec p pid hi o d oi pt ti) h]
    rfl

/-- C1 witness: on an empty supply every pair is unreachable and the
call returns the empty pair. -/
theorem find_path_parallel_and_unreachable_empty_w :
    find_path stEmptyEx 1 1 0 5 6 1 0 0 = ([], []) :=
  (find_path_parallel_and_unreachable_empty stEmptyEx 1 1 0 5 6 1 0 0).2.2
    (fun ⟨_, _, hA⟩ => by
      simp [stEmptyEx, emptySupply, hasAccessLink] at hA)

end FastTrips
